import Mathlib

/-!
Verification of the reply-reference normalization core
(`td/telegram/RepliedMessageInfo.cpp`).

The C++ source file is embedded shallowly: the constructor from a wire
reply header, the constructor from a locally-pending reply target, the
equality comparator and the change classifier become Lean functions over
explicit data types.  External collaborators (message/chat identity
construction, origin resolution, content decoding, text sanitization,
session lookup) are modelled from the specification as plain data types
and injected capability functions.
-/

namespace RepliedMessage

/-- Modelled from the spec: the chat-type tags used by the gap-tolerance
lookup (`DialogId::get_type` is external to the source file). -/
inductive DialogType where
  | User
  | Chat
  | Channel
  | SecretChat
  | None
deriving DecidableEq, Repr

/-- Modelled from the spec: chat identity (`DialogId` is external).  A chat
identity is either the default empty value or a typed identifier; validity
requires a positive raw id. -/
inductive DialogId where
  | none
  | user (id : Int)
  | chat (id : Int)
  | channel (id : Int)
  | secretChat (id : Int)
deriving DecidableEq, Repr

/-- Modelled from the spec: the chat-type observer of a chat identity. -/
def DialogId.get_type : DialogId → DialogType
  | .none => .None
  | .user _ => .User
  | .chat _ => .Chat
  | .channel _ => .Channel
  | .secretChat _ => .SecretChat

/-- Modelled from the spec: validity of a chat identity; the default empty
value is invalid, any typed identifier needs a positive raw id. -/
def DialogId.is_valid : DialogId → Bool
  | .none => false
  | .user i => 0 < i
  | .chat i => 0 < i
  | .channel i => 0 < i
  | .secretChat i => 0 < i

/-- Modelled from the spec: message identity is a tagged variant
`None | Regular(server id) | Scheduled(server id, publish date)`. -/
inductive MessageId where
  | none
  | regular (serverId : Int)
  | scheduled (serverId : Int) (date : Int)
deriving DecidableEq, Repr

/-- Modelled from the spec: a regular message identity is valid when its
server id is positive; the empty and scheduled identities are not "valid"
regular identities. -/
def MessageId.is_valid : MessageId → Bool
  | .regular i => 0 < i
  | _ => false

/-- Modelled from the spec: whether the identity is of the scheduled kind. -/
def MessageId.is_scheduled : MessageId → Bool
  | .scheduled _ _ => true
  | _ => false

/-- Modelled from the spec: a scheduled identity is valid when its server
scheduled id is positive. -/
def MessageId.is_valid_scheduled : MessageId → Bool
  | .scheduled i _ => 0 < i
  | _ => false

/-- Modelled from the spec: whether the identity carries a server-assigned
scheduled id (in this model every scheduled identity does). -/
def MessageId.is_scheduled_server : MessageId → Bool
  | .scheduled _ _ => true
  | _ => false

/-- Modelled from the spec: the underlying server scheduled id of a
scheduled identity. -/
def MessageId.get_scheduled_server_message_id : MessageId → Int
  | .scheduled i _ => i
  | _ => 0

/-- Modelled from the spec: ordering between message identities; regular
ids compare by server id, and the empty identity is below every valid
regular id.  Ordering is only meaningful between identities of the same
kind, and the normalizer only compares regular identities. -/
def MessageId.gt : MessageId → MessageId → Bool
  | .regular a, .regular b => b < a
  | .regular a, .none => 0 < a
  | _, _ => false

/-- Modelled from the spec: construction of a scheduled message identity
from a raw wire id and the owning message's date (the external
`MessageId(ScheduledServerMessageId, date)` constructor).  When the id
would not be structurally valid the constructor yields the empty identity,
reporting an anomaly (recorded by the caller). -/
def mkScheduledMessageId (rawId : Int) (date : Int) : MessageId :=
  if 0 < rawId then .scheduled rawId date else .none

/-- Modelled from the spec: construction of a regular message identity from
a raw wire id (the external `MessageId(ServerMessageId)` constructor); the
raw id is copied verbatim and validity is checked separately. -/
def mkServerMessageId (rawId : Int) : MessageId :=
  .regular rawId

/-- Modelled from the spec: sender attribution of the original message
(`MessageOrigin` is external).  `senderId = 0` is the empty attribution;
`signature` is the sender signature, empty when absent. -/
structure MessageOrigin where
  senderId : Int
  signature : String
deriving DecidableEq, Repr

/-- Modelled from the spec: the empty origin (no cross-context origin). -/
def MessageOrigin.empty : MessageOrigin := ⟨0, ""⟩

/-- Modelled from the spec: whether the origin carries no attribution. -/
def MessageOrigin.is_empty (o : MessageOrigin) : Bool :=
  o.senderId = 0

/-- Modelled from the spec: whether the origin carries a sender
signature. -/
def MessageOrigin.has_sender_signature (o : MessageOrigin) : Bool :=
  o.signature ≠ ""

/-- Modelled from the spec: quoted excerpt with rich-text entities;
entities are opaque to this core. -/
structure FormattedText where
  text : String
  entities : List Nat
deriving DecidableEq, Repr

/-- Modelled from the spec: the closed list of message content kinds the
external `ContentCodec` can produce. -/
inductive MessageContentType where
  | Animation
  | Audio
  | Contact
  | Dice
  | Document
  | ExpiredPhoto
  | ExpiredVideo
  | Game
  | Giveaway
  | Invoice
  | LiveLocation
  | Location
  | Photo
  | Poll
  | Sticker
  | Story
  | Text
  | Unsupported
  | Venue
  | Video
  | VideoNote
  | VoiceNote
deriving DecidableEq, Repr

/-- Modelled from the spec: a decoded content snapshot, a kind tag plus an
opaque payload. -/
structure MessageContent where
  type : MessageContentType
  payload : Nat
deriving DecidableEq, Repr

/-- Modelled from the spec: a raw wire media payload; `is_empty` marks the
`messageMediaEmpty` placeholder, the payload is opaque. -/
structure Media where
  is_empty : Bool
  payload : Nat
deriving DecidableEq, Repr

/-- Modelled from the spec: the wire origin fragment
`{publish_date, is_channel_post, sender_attribution}`. -/
structure ReplyFrom where
  date : Int
  channel_post : Int
  payload : Nat
deriving DecidableEq, Repr

/-- Modelled from the spec: the raw wire reply header consumed by the
normalizer (field names abstracted from `telegram_api::messageReplyHeader`;
`quote` is the explicit "manual quote" flag). -/
structure MessageReplyHeader where
  reply_to_scheduled : Bool
  reply_to_msg_id : Int
  reply_to_peer_id : Option DialogId
  reply_from : Option ReplyFrom
  reply_media : Option Media
  quote_text : String
  quote_entities : List Nat
  quote : Bool
deriving Repr

/-- Modelled from the spec: a locally-pending reply target chosen by the
user before sending. -/
structure MessageInputReplyTo where
  message_id : MessageId
deriving DecidableEq, Repr

/-- Modelled from the spec: the slice of global context the normalizer
reads — the number of active sessions, used by the gap-tolerance lookup. -/
structure Td where
  session_count : Int
deriving Repr

/-- Modelled from the spec: the injected external capabilities —
origin resolution (`MessageOrigin::get_message_origin`, may fail), content
decoding (`get_message_content`, total), entity parsing
(`get_message_entities`), text sanitization (`fix_formatted_text`, may
fail, returns the fixed text and entities on success), and plain-text
cleanup (`clean_input_string`, may fail). -/
structure Caps where
  resolveOrigin : ReplyFrom → Option MessageOrigin
  getContent : Media → MessageContent
  parseEntities : List Nat → List Nat
  fixText : String → List Nat → Option (String × List Nat)
  cleanString : String → Option String

/-- The normalized reply reference (`RepliedMessageInfo`'s fields). -/
structure RepliedMessageInfo where
  message_id : MessageId := .none
  dialog_id : DialogId := .none
  origin_date : Int := 0
  origin : MessageOrigin := MessageOrigin.empty
  quote : FormattedText := ⟨"", []⟩
  is_quote_manual : Bool := false
  content : Option MessageContent := Option.none
deriving Repr

/-- Gap-tolerant sequencing: one-to-one and basic group chats with more
than one active session (`has_qts_messages` in the source; the
unreachable `None` case returns `false` as the source does). -/
def has_qts_messages (td : Td) (dialog_id : DialogId) : Bool :=
  match dialog_id.get_type with
  | .User | .Chat => 1 < td.session_count
  | .Channel | .SecretChat => false
  | .None => false

/-- Target-field normalization for the scheduled-target branch of
`RepliedMessageInfo::RepliedMessageInfo` (source lines 46–68): build the
scheduled identity, require the owning message itself to be a valid
scheduled message, reject a cross-chat identity and a self reference, and
report (but otherwise ignore) origin or media fields.  Returns the
resulting `message_id`, `dialog_id` and the anomaly log. -/
def normalizeScheduledTarget (reply_header : MessageReplyHeader)
    (message_id : MessageId) (date : Int) : MessageId × DialogId × List String :=
  let mid0 := mkScheduledMessageId reply_header.reply_to_msg_id date
  let log0 : List String :=
    if mid0 = MessageId.none then ["invalid scheduled reply identifier"] else []
  let fromMediaLog : List String :=
    if reply_header.reply_from ≠ Option.none ∨ reply_header.reply_media ≠ Option.none then
      ["reply from other chat in scheduled message"]
    else []
  if message_id.is_valid_scheduled then
    let step1 : MessageId × DialogId × List String :=
      match reply_header.reply_to_peer_id with
      | some _ => (.none, .none, log0 ++ ["reply to scheduled message in another chat"])
      | none => (mid0, .none, log0)
    let step2 : MessageId × DialogId × List String :=
      if message_id = step1.1 then (.none, step1.2.1, step1.2.2 ++ ["self reply"])
      else step1
    (step2.1, step2.2.1, step2.2.2 ++ fromMediaLog)
  else
    (.none, .none, log0 ++ ["reply to scheduled message in non-scheduled message"] ++ fromMediaLog)

/-- Target-field normalization for the non-scheduled branch (source lines
69–95): build a regular identity from a non-zero raw id, parse an optional
cross-chat identity (clearing both fields when it is invalid, dropping it
when it names the owning chat), clear both fields when the identity is
invalid, and otherwise apply the causality guard.  A zero raw id skips id
construction; a dangling peer reference is only reported. -/
def normalizeRegularTarget (td : Td) (reply_header : MessageReplyHeader)
    (dialog_id : DialogId) (message_id : MessageId) : MessageId × DialogId × List String :=
  if reply_header.reply_to_msg_id ≠ 0 then
    let mid0 := mkServerMessageId reply_header.reply_to_msg_id
    let step1 : MessageId × DialogId × List String :=
      match reply_header.reply_to_peer_id with
      | some peer =>
        let base : MessageId × DialogId × List String :=
          if ¬ peer.is_valid then (.none, .none, ["reply in invalid peer"])
          else (mid0, peer, [])
        (base.1, if base.2.1 = dialog_id then DialogId.none else base.2.1, base.2.2)
      | none => (mid0, .none, [])
    if ¬ step1.1.is_valid then
      (.none, .none, step1.2.2 ++ ["invalid reply identifier"])
    else if ¬ message_id.is_scheduled ∧ ¬ step1.2.1.is_valid ∧
        ((step1.1.gt message_id ∧ ¬ has_qts_messages td dialog_id) ∨ step1.1 = message_id) then
      (.none, step1.2.1, step1.2.2 ++ ["impossible reply identifier"])
    else
      step1
  else if reply_header.reply_to_peer_id ≠ Option.none then
    (.none, .none, ["reply to peer without message identifier"])
  else
    (.none, .none, [])

/-- Origin normalization (source lines 96–106, non-scheduled branch only):
take the publish date from the wire origin fragment; a claimed channel
post is reported and the origin ignored; otherwise the external resolver
runs and on failure the date is reset to 0.  Returns `origin_date`,
`origin` and the anomaly log. -/
def normalizeOrigin (caps : Caps) (reply_header : MessageReplyHeader) :
    Int × MessageOrigin × List String :=
  match reply_header.reply_from with
  | some f =>
    if f.channel_post ≠ 0 then
      (f.date, MessageOrigin.empty, ["channel post as reply origin"])
    else
      match caps.resolveOrigin f with
      | some _ => (f.date, MessageOrigin.empty, [])
      | none => (0, MessageOrigin.empty, [])
  | none => (0, MessageOrigin.empty, [])

/-- The allow-list of content kinds a reply snapshot may hold (the
`switch` at source lines 112–139). -/
def is_allowed_reply_content_type : MessageContentType → Bool
  | .Animation | .Audio | .Contact | .Dice | .Document | .Game | .Giveaway
  | .Invoice | .Location | .Photo | .Poll | .Sticker | .Story | .Unsupported
  | .Venue | .Video | .VideoNote | .VoiceNote => true
  | _ => false

/-- Content normalization (source lines 107–140, non-scheduled branch
only): decode a non-empty media payload through the external codec and
discard (with an anomaly) any content kind outside the allow-list. -/
def normalizeContent (caps : Caps) (reply_header : MessageReplyHeader) :
    Option MessageContent × List String :=
  match reply_header.reply_media with
  | some m =>
    if ¬ m.is_empty then
      let c := caps.getContent m
      if is_allowed_reply_content_type c.type then (some c, [])
      else (Option.none, ["reply with media of disallowed type"])
    else (Option.none, [])
  | none => (Option.none, [])

/-- Quote normalization (source lines 142–154, both branches): for a
non-empty raw quote text, parse entities, run the sanitization pass, and
on its failure fall back to plain-text cleanup with entities discarded
(clearing the text when cleanup itself fails).  Returns the quote and the
`is_quote_manual` flag. -/
def normalizeQuote (caps : Caps) (reply_header : MessageReplyHeader) :
    FormattedText × Bool :=
  if reply_header.quote_text ≠ "" then
    let entities := caps.parseEntities reply_header.quote_entities
    match caps.fixText reply_header.quote_text entities with
    | some fixed => (⟨fixed.1, fixed.2⟩, reply_header.quote)
    | none =>
      match caps.cleanString reply_header.quote_text with
      | some t => (⟨t, []⟩, reply_header.quote)
      | none => (⟨"", []⟩, reply_header.quote)
  else
    (⟨"", []⟩, false)

/-- The normalizer: `RepliedMessageInfo::RepliedMessageInfo(Td *,
tl_object_ptr<telegram_api::messageReplyHeader> &&, DialogId, MessageId,
int32)` (source lines 43–155).  Returns the constructed value together
with the list of reported anomalies. -/
def mkRepliedMessageInfo (td : Td) (caps : Caps) (reply_header : MessageReplyHeader)
    (dialog_id : DialogId) (message_id : MessageId) (date : Int) :
    RepliedMessageInfo × List String :=
  let q := normalizeQuote caps reply_header
  if reply_header.reply_to_scheduled then
    let t := normalizeScheduledTarget reply_header message_id date
    ({ message_id := t.1, dialog_id := t.2.1, quote := q.1, is_quote_manual := q.2 }, t.2.2)
  else
    let t := normalizeRegularTarget td reply_header dialog_id message_id
    let o := normalizeOrigin caps reply_header
    let c := normalizeContent caps reply_header
    ({ message_id := t.1, dialog_id := t.2.1, origin_date := o.1, origin := o.2.1,
       quote := q.1, is_quote_manual := q.2, content := c.1 },
     t.2.2 ++ o.2.2 ++ c.2)

/-- The context-reply builder: `RepliedMessageInfo::RepliedMessageInfo(Td *,
const MessageInputReplyTo &)` (source lines 157–162). -/
def mkRepliedMessageInfoFromInput (input_reply_to : MessageInputReplyTo) :
    RepliedMessageInfo :=
  if ¬ input_reply_to.message_id.is_valid then {}
  else { message_id := input_reply_to.message_id }

/-- The equality comparator `operator==` (source lines 275–288),
parameterized by the external content-comparison capability
`compare_message_contents`, which reports the pair
(is-content-changed, needs-update). -/
def repliedMessageInfoEq
    (compare_message_contents : Option MessageContent → Option MessageContent → Bool × Bool)
    (lhs rhs : RepliedMessageInfo) : Bool :=
  if ¬ (lhs.message_id = rhs.message_id ∧ lhs.dialog_id = rhs.dialog_id ∧
        lhs.origin_date = rhs.origin_date ∧ lhs.origin = rhs.origin ∧
        lhs.quote = rhs.quote ∧ lhs.is_quote_manual = rhs.is_quote_manual) then
    false
  else
    let signals := compare_message_contents lhs.content rhs.content
    if signals.2 ∨ signals.1 then false else true

/-- The change classifier `RepliedMessageInfo::need_reply_changed_warning`
(source lines 168–219): ordered decision list returning `true` for a
meaningful change and `false` for a benign transition. -/
def need_reply_changed_warning (old_info new_info : RepliedMessageInfo)
    (old_top_thread_message_id : MessageId) (is_yet_unsent : Bool)
    (is_reply_to_deleted_message : RepliedMessageInfo → Bool) : Bool :=
  if old_info.origin_date ≠ new_info.origin_date ∧ old_info.origin_date ≠ 0 ∧
      new_info.origin_date ≠ 0 then
    true
  else if old_info.origin ≠ new_info.origin ∧ ¬ old_info.origin.has_sender_signature ∧
      ¬ new_info.origin.has_sender_signature ∧ ¬ old_info.origin.is_empty ∧
      ¬ new_info.origin.is_empty then
    true
  else if old_info.dialog_id ≠ new_info.dialog_id ∧ old_info.dialog_id ≠ DialogId.none ∧
      new_info.dialog_id ≠ DialogId.none then
    true
  else if old_info.message_id = new_info.message_id ∧ old_info.dialog_id = new_info.dialog_id then
    if old_info.message_id ≠ MessageId.none then
      if old_info.origin_date ≠ new_info.origin_date then
        true
      else if old_info.origin ≠ new_info.origin ∧ ¬ old_info.origin.has_sender_signature ∧
          ¬ new_info.origin.has_sender_signature then
        true
      else
        false
    else
      false
  else if is_yet_unsent ∧ is_reply_to_deleted_message old_info ∧
      new_info.message_id = MessageId.none then
    false
  else if is_yet_unsent ∧ is_reply_to_deleted_message new_info ∧
      old_info.message_id = MessageId.none then
    false
  else if old_info.message_id.is_valid_scheduled ∧ old_info.message_id.is_scheduled_server ∧
      new_info.message_id.is_valid_scheduled ∧ new_info.message_id.is_scheduled_server ∧
      old_info.message_id.get_scheduled_server_message_id =
        new_info.message_id.get_scheduled_server_message_id then
    false
  else if is_yet_unsent ∧ old_top_thread_message_id = new_info.message_id ∧
      new_info.dialog_id = DialogId.none then
    false
  else
    true

/-- A trivial capability bundle used to instantiate general theorems at
concrete inputs. -/
def trivialCaps : Caps where
  resolveOrigin := fun _ => Option.none
  getContent := fun _ => ⟨.Photo, 0⟩
  parseEntities := fun e => e
  fixText := fun t e => some (t, e)
  cleanString := fun t => some t

/-- A wire header with all fields at their most inert values, used as a
base for concrete instantiations. -/
def hdrBase : MessageReplyHeader where
  reply_to_scheduled := false
  reply_to_msg_id := 0
  reply_to_peer_id := Option.none
  reply_from := Option.none
  reply_media := Option.none
  quote_text := ""
  quote_entities := []
  quote := false

/-- C2: equality of two references holds iff the six scalar fields agree
and the external content comparison reports both of its signals
(is-changed, needs-update) as false. -/
theorem c2_equality_comparator
    (compare_message_contents : Option MessageContent → Option MessageContent → Bool × Bool)
    (lhs rhs : RepliedMessageInfo) :
    repliedMessageInfoEq compare_message_contents lhs rhs = true ↔
      (lhs.message_id = rhs.message_id ∧ lhs.dialog_id = rhs.dialog_id ∧
       lhs.origin_date = rhs.origin_date ∧ lhs.origin = rhs.origin ∧
       lhs.quote = rhs.quote ∧ lhs.is_quote_manual = rhs.is_quote_manual ∧
       (compare_message_contents lhs.content rhs.content).2 = false ∧
       (compare_message_contents lhs.content rhs.content).1 = false) := by
  unfold repliedMessageInfoEq
  split_ifs with h1 <;> simp_all

/-- C8: the context-reply builder copies a valid target id verbatim and
leaves every other field empty; an invalid target id yields the all-empty
reference. -/
theorem c8_context_reply (input_reply_to : MessageInputReplyTo) :
    (input_reply_to.message_id.is_valid = true →
      mkRepliedMessageInfoFromInput input_reply_to =
        { message_id := input_reply_to.message_id, dialog_id := .none, origin_date := 0,
          origin := MessageOrigin.empty, quote := ⟨"", []⟩, is_quote_manual := false,
          content := Option.none }) ∧
    (input_reply_to.message_id.is_valid = false →
      mkRepliedMessageInfoFromInput input_reply_to =
        { message_id := .none, dialog_id := .none, origin_date := 0,
          origin := MessageOrigin.empty, quote := ⟨"", []⟩, is_quote_manual := false,
          content := Option.none }) := by
  unfold mkRepliedMessageInfoFromInput
  constructor <;> intro h <;> simp [h]

/-- C8 witness at the concrete target id 5. -/
theorem c8_context_reply_witness :
    mkRepliedMessageInfoFromInput ⟨.regular 5⟩ =
      { message_id := .regular 5, dialog_id := .none, origin_date := 0,
        origin := MessageOrigin.empty, quote := ⟨"", []⟩, is_quote_manual := false,
        content := Option.none } :=
  (c8_context_reply ⟨.regular 5⟩).1 (by decide)

/-- C7: a non-scheduled header with a zero target id yields an empty
`message_id` and an empty `chat_id` regardless of the other fields, and a
declared cross-chat identity only triggers an anomaly report. -/
theorem c7_zero_target (td : Td) (caps : Caps) (reply_header : MessageReplyHeader)
    (dialog_id : DialogId) (message_id : MessageId) (date : Int)
    (hs : reply_header.reply_to_scheduled = false)
    (hz : reply_header.reply_to_msg_id = 0) :
    ((mkRepliedMessageInfo td caps reply_header dialog_id message_id date).1.message_id =
        MessageId.none ∧
      (mkRepliedMessageInfo td caps reply_header dialog_id message_id date).1.dialog_id =
        DialogId.none) ∧
    (reply_header.reply_to_peer_id ≠ Option.none →
      "reply to peer without message identifier" ∈
        (mkRepliedMessageInfo td caps reply_header dialog_id message_id date).2) := by
  unfold mkRepliedMessageInfo normalizeRegularTarget
  simp only [hs, hz, if_false, Bool.false_eq_true, ite_false, ne_eq, not_true_eq_false]
  rcases hp : reply_header.reply_to_peer_id with _ | peer <;> simp [hp]

/-- C7 witness: a zero-id header that still declares a cross-chat
identity. -/
theorem c7_zero_target_witness :
    ((mkRepliedMessageInfo ⟨1⟩ trivialCaps
          { hdrBase with reply_to_peer_id := some (.channel 7) }
          (.user 1) (.regular 3) 0).1.message_id = MessageId.none ∧
      (mkRepliedMessageInfo ⟨1⟩ trivialCaps
          { hdrBase with reply_to_peer_id := some (.channel 7) }
          (.user 1) (.regular 3) 0).1.dialog_id = DialogId.none) ∧
    "reply to peer without message identifier" ∈
      (mkRepliedMessageInfo ⟨1⟩ trivialCaps
          { hdrBase with reply_to_peer_id := some (.channel 7) }
          (.user 1) (.regular 3) 0).2 := by
  have h := c7_zero_target ⟨1⟩ trivialCaps
    { hdrBase with reply_to_peer_id := some (.channel 7) } (.user 1) (.regular 3) 0 rfl rfl
  exact ⟨h.1, h.2 (by decide)⟩

/-- C10: in the non-scheduled branch, origin data claiming a channel post
is ignored (empty origin) while `origin_date` keeps the header's publish
date; by contrast, when the external resolver fails, `origin_date` is
reset to 0 (and the origin is empty as well). -/
theorem c10_channel_post_origin (td : Td) (caps : Caps) (reply_header : MessageReplyHeader)
    (dialog_id : DialogId) (message_id : MessageId) (date : Int) (f : ReplyFrom)
    (hs : reply_header.reply_to_scheduled = false)
    (hf : reply_header.reply_from = some f) :
    (f.channel_post ≠ 0 →
      (mkRepliedMessageInfo td caps reply_header dialog_id message_id date).1.origin =
          MessageOrigin.empty ∧
        (mkRepliedMessageInfo td caps reply_header dialog_id message_id date).1.origin_date =
          f.date) ∧
    (f.channel_post = 0 → caps.resolveOrigin f = Option.none →
      (mkRepliedMessageInfo td caps reply_header dialog_id message_id date).1.origin =
          MessageOrigin.empty ∧
        (mkRepliedMessageInfo td caps reply_header dialog_id message_id date).1.origin_date =
          0) := by
  unfold mkRepliedMessageInfo normalizeOrigin
  refine ⟨fun hc => ?_, fun hc hr => ?_⟩ <;> simp [hs, hf, hc]
  simp [hr]

/-- C10 witness: a channel-post origin fragment with date 77, and the
resolver-failure contrast at the same fragment with the flag cleared. -/
theorem c10_channel_post_origin_witness :
    ((mkRepliedMessageInfo ⟨1⟩ trivialCaps
          { hdrBase with reply_from := some ⟨77, 9, 0⟩ }
          (.user 1) (.regular 3) 0).1.origin = MessageOrigin.empty ∧
      (mkRepliedMessageInfo ⟨1⟩ trivialCaps
          { hdrBase with reply_from := some ⟨77, 9, 0⟩ }
          (.user 1) (.regular 3) 0).1.origin_date = 77) ∧
    ((mkRepliedMessageInfo ⟨1⟩ trivialCaps
          { hdrBase with reply_from := some ⟨77, 0, 0⟩ }
          (.user 1) (.regular 3) 0).1.origin = MessageOrigin.empty ∧
      (mkRepliedMessageInfo ⟨1⟩ trivialCaps
          { hdrBase with reply_from := some ⟨77, 0, 0⟩ }
          (.user 1) (.regular 3) 0).1.origin_date = 0) := by
  constructor
  · exact (c10_channel_post_origin ⟨1⟩ trivialCaps
      { hdrBase with reply_from := some ⟨77, 9, 0⟩ } (.user 1) (.regular 3) 0
      ⟨77, 9, 0⟩ rfl rfl).1 (by decide)
  · exact (c10_channel_post_origin ⟨1⟩ trivialCaps
      { hdrBase with reply_from := some ⟨77, 0, 0⟩ } (.user 1) (.regular 3) 0
      ⟨77, 0, 0⟩ rfl rfl).2 rfl rfl

/-- C4: in the scheduled-target branch, when the scheduled identity built
from the raw target id and the owning date is not structurally valid (the
external constructor yields the empty identity), the resulting reference
has an empty `message_id` and an anomaly is reported. -/
theorem c4_invalid_scheduled_target (td : Td) (caps : Caps) (reply_header : MessageReplyHeader)
    (dialog_id : DialogId) (message_id : MessageId) (date : Int)
    (hs : reply_header.reply_to_scheduled = true)
    (hinv : mkScheduledMessageId reply_header.reply_to_msg_id date = MessageId.none) :
    (mkRepliedMessageInfo td caps reply_header dialog_id message_id date).1.message_id =
        MessageId.none ∧
      (mkRepliedMessageInfo td caps reply_header dialog_id message_id date).2 ≠ [] := by
  unfold mkRepliedMessageInfo normalizeScheduledTarget
  simp only [hs, if_true, hinv]
  by_cases hv : message_id.is_valid_scheduled <;>
    rcases hp : reply_header.reply_to_peer_id with _ | peer <;>
      by_cases he : message_id = MessageId.none <;>
        simp_all

/-- C4 witness: a scheduled-target header with raw id 0 (structurally
invalid) in a validly scheduled owning message. -/
theorem c4_invalid_scheduled_target_witness :
    (mkRepliedMessageInfo ⟨1⟩ trivialCaps
        { hdrBase with reply_to_scheduled := true, reply_to_msg_id := 0 }
        (.user 1) (.scheduled 4 100) 100).1.message_id = MessageId.none ∧
      (mkRepliedMessageInfo ⟨1⟩ trivialCaps
          { hdrBase with reply_to_scheduled := true, reply_to_msg_id := 0 }
          (.user 1) (.scheduled 4 100) 100).2 ≠ [] :=
  c4_invalid_scheduled_target ⟨1⟩ trivialCaps
    { hdrBase with reply_to_scheduled := true, reply_to_msg_id := 0 }
    (.user 1) (.scheduled 4 100) 100 rfl (by decide)

/-- C9: when both message identities are valid server-side scheduled ids
sharing the same underlying server scheduled id but differing publish
dates, and the origin-date, origin, and chat-id rules do not fire, the
classifier reports the transition as benign. -/
theorem c9_schedule_date_change (old_info new_info : RepliedMessageInfo)
    (old_top_thread_message_id : MessageId) (is_yet_unsent : Bool)
    (is_reply_to_deleted_message : RepliedMessageInfo → Bool)
    (x d1 d2 : Int)
    (hold : old_info.message_id = .scheduled x d1)
    (hnew : new_info.message_id = .scheduled x d2)
    (hx : 0 < x) (hd : d1 ≠ d2)
    (h1 : ¬ (old_info.origin_date ≠ new_info.origin_date ∧ old_info.origin_date ≠ 0 ∧
      new_info.origin_date ≠ 0))
    (h2 : ¬ (old_info.origin ≠ new_info.origin ∧ ¬ old_info.origin.has_sender_signature ∧
      ¬ new_info.origin.has_sender_signature ∧ ¬ old_info.origin.is_empty ∧
      ¬ new_info.origin.is_empty))
    (h3 : ¬ (old_info.dialog_id ≠ new_info.dialog_id ∧ old_info.dialog_id ≠ DialogId.none ∧
      new_info.dialog_id ≠ DialogId.none)) :
    need_reply_changed_warning old_info new_info old_top_thread_message_id is_yet_unsent
      is_reply_to_deleted_message = false := by
  have hc4 : ¬ (old_info.message_id = new_info.message_id ∧
      old_info.dialog_id = new_info.dialog_id) := by
    rintro ⟨hcontr, -⟩
    rw [hold, hnew] at hcontr
    simp only [MessageId.scheduled.injEq] at hcontr
    exact hd hcontr.2
  have hc5 : ¬ (is_yet_unsent ∧ is_reply_to_deleted_message old_info ∧
      new_info.message_id = MessageId.none) := by
    rintro ⟨-, -, hcontr⟩
    rw [hnew] at hcontr
    exact MessageId.noConfusion hcontr
  have hc6 : ¬ (is_yet_unsent ∧ is_reply_to_deleted_message new_info ∧
      old_info.message_id = MessageId.none) := by
    rintro ⟨-, -, hcontr⟩
    rw [hold] at hcontr
    exact MessageId.noConfusion hcontr
  have hc7 : (old_info.message_id.is_valid_scheduled ∧ old_info.message_id.is_scheduled_server ∧
      new_info.message_id.is_valid_scheduled ∧ new_info.message_id.is_scheduled_server ∧
      old_info.message_id.get_scheduled_server_message_id =
        new_info.message_id.get_scheduled_server_message_id : Prop) := by
    refine ⟨?_, ?_, ?_, ?_, ?_⟩ <;>
      simp [hold, hnew, MessageId.is_valid_scheduled, MessageId.is_scheduled_server,
        MessageId.get_scheduled_server_message_id, hx]
  unfold need_reply_changed_warning
  rw [if_neg h1, if_neg h2, if_neg h3, if_neg hc4, if_neg hc5, if_neg hc6, if_pos hc7]

/-- C9 witness: scheduled ids with server scheduled id 4 and publish dates
100 and 200 on otherwise-empty references. -/
theorem c9_schedule_date_change_witness :
    need_reply_changed_warning
      { message_id := .scheduled 4 100 } { message_id := .scheduled 4 200 }
      MessageId.none false (fun _ => false) = false :=
  c9_schedule_date_change { message_id := .scheduled 4 100 } { message_id := .scheduled 4 200 }
    MessageId.none false (fun _ => false) 4 100 200 rfl rfl (by decide) (by decide)
    (by decide) (by decide) (by decide)

/-- Concrete old reference for the C3 analysis: the origin carries a
sender signature and differs from the new origin in its attribution, not
merely in the signature. -/
def c3OldInfo : RepliedMessageInfo :=
  { message_id := .regular 10, origin_date := 5, origin := ⟨1, "s"⟩ }

/-- Concrete new reference for the C3 analysis. -/
def c3NewInfo : RepliedMessageInfo :=
  { message_id := .regular 10, origin_date := 5, origin := ⟨2, "s"⟩ }

/-- C3 counterexample: both origins are non-empty and differ in their
attribution (not merely in the signature), yet the classifier reports the
transition as benign, because the source gates its origin rule on neither
origin *carrying* a sender signature rather than on the difference being
signature-only. -/
theorem c3_counterexample :
    c3OldInfo.origin.is_empty = false ∧ c3NewInfo.origin.is_empty = false ∧
    c3OldInfo.origin ≠ c3NewInfo.origin ∧
    c3OldInfo.origin.senderId ≠ c3NewInfo.origin.senderId ∧
    c3OldInfo.origin.signature = c3NewInfo.origin.signature ∧
    need_reply_changed_warning c3OldInfo c3NewInfo MessageId.none false
      (fun _ => false) = false := by
  refine ⟨rfl, rfl, by decide, by decide, rfl, ?_⟩
  decide

/-- C3 amended: when both origins are non-empty, differ, and neither
origin carries a sender signature, the classifier returns meaningful. -/
theorem c3_origin_rule (old_info new_info : RepliedMessageInfo)
    (old_top_thread_message_id : MessageId) (is_yet_unsent : Bool)
    (is_reply_to_deleted_message : RepliedMessageInfo → Bool)
    (hne : old_info.origin ≠ new_info.origin)
    (ho : old_info.origin.has_sender_signature = false)
    (hn : new_info.origin.has_sender_signature = false)
    (he : old_info.origin.is_empty = false)
    (he' : new_info.origin.is_empty = false) :
    need_reply_changed_warning old_info new_info old_top_thread_message_id is_yet_unsent
      is_reply_to_deleted_message = true := by
  unfold need_reply_changed_warning
  split_ifs with h1 h2 <;> simp_all

/-- C3 amended witness: origins ⟨1, \"\"⟩ and ⟨2, \"\"⟩ (non-empty, no
signatures) on otherwise-identical references. -/
theorem c3_origin_rule_witness :
    need_reply_changed_warning { origin := ⟨1, ""⟩ } { origin := ⟨2, ""⟩ }
      MessageId.none false (fun _ => false) = true :=
  c3_origin_rule { origin := ⟨1, ""⟩ } { origin := ⟨2, ""⟩ } MessageId.none false
    (fun _ => false) (by decide) rfl rfl rfl rfl

/-- C1: the causality guard — for a non-scheduled header with a non-zero
target id, a non-scheduled owning message and no cross-chat identity, a
target id that is ahead of the owning message without gap tolerance, or
equal to it, is cleared with an anomaly; and gap tolerance holds exactly
for one-to-one and basic group chats with more than one active session. -/
theorem c1_causality_guard :
    (∀ (td : Td) (caps : Caps) (reply_header : MessageReplyHeader) (dialog_id : DialogId)
        (message_id : MessageId) (date : Int),
      reply_header.reply_to_scheduled = false →
      reply_header.reply_to_msg_id ≠ 0 →
      (reply_header.reply_to_peer_id = Option.none ∨
        reply_header.reply_to_peer_id = some dialog_id ∨
        (∃ p, reply_header.reply_to_peer_id = some p ∧ p.is_valid = false)) →
      message_id.is_scheduled = false →
      (((mkServerMessageId reply_header.reply_to_msg_id).gt message_id = true ∧
          has_qts_messages td dialog_id = false) ∨
        mkServerMessageId reply_header.reply_to_msg_id = message_id) →
      (mkRepliedMessageInfo td caps reply_header dialog_id message_id date).1.message_id =
          MessageId.none ∧
        (mkRepliedMessageInfo td caps reply_header dialog_id message_id date).2 ≠ []) ∧
    (∀ (td : Td) (d : DialogId),
      has_qts_messages td d = true ↔
        ((d.get_type = DialogType.User ∨ d.get_type = DialogType.Chat) ∧
          1 < td.session_count)) := by
  constructor
  · intro td caps reply_header dialog_id message_id date hs hnz hp hsch hguard
    unfold mkRepliedMessageInfo normalizeRegularTarget
    rcases hp with hp | hp | ⟨p, hp, hpv⟩ <;>
      simp only [hs, Bool.false_eq_true, if_false, hp, ne_eq, hnz, not_false_iff, if_true] <;>
        by_cases hv : (mkServerMessageId reply_header.reply_to_msg_id).is_valid <;>
          split_ifs <;> simp_all [DialogId.is_valid]
  · intro td d
    cases d <;> simp [has_qts_messages, DialogId.get_type]

/-- C1 witness: target id 5 ahead of owning id 3 in a one-to-one chat
with a single session. -/
theorem c1_causality_guard_witness :
    (mkRepliedMessageInfo ⟨1⟩ trivialCaps { hdrBase with reply_to_msg_id := 5 }
        (.user 1) (.regular 3) 0).1.message_id = MessageId.none ∧
      (mkRepliedMessageInfo ⟨1⟩ trivialCaps { hdrBase with reply_to_msg_id := 5 }
          (.user 1) (.regular 3) 0).2 ≠ [] :=
  c1_causality_guard.1 ⟨1⟩ trivialCaps { hdrBase with reply_to_msg_id := 5 }
    (.user 1) (.regular 3) 0 rfl (by decide) (Or.inl rfl) rfl (Or.inl (by decide))

/-- Capability bundle whose sanitization pass and plain-text cleanup both
fail, exercising the inner fallback of the quote handler. -/
def failingTextCaps : Caps :=
  { trivialCaps with
    fixText := fun _ _ => Option.none
    cleanString := fun _ => Option.none }

/-- Capability bundle whose sanitization pass fails while the plain-text
cleanup succeeds with a fixed cleaned string. -/
def fallbackTextCaps : Caps :=
  { trivialCaps with
    fixText := fun _ _ => Option.none
    cleanString := fun _ => some "cleaned" }

/-- C5 counterexample: with a non-empty raw quote text whose sanitization
pass fails, and a plain-text cleanup that also fails, the constructed
reference carries no quote at all (empty text, no entities) — the quote is
dropped outright rather than kept. -/
theorem c5_counterexample :
    ({ hdrBase with quote_text := "q" } : MessageReplyHeader).quote_text ≠ "" ∧
    failingTextCaps.fixText "q" (failingTextCaps.parseEntities []) = Option.none ∧
    (mkRepliedMessageInfo ⟨1⟩ failingTextCaps { hdrBase with quote_text := "q" }
        (.user 1) (.regular 3) 0).1.quote = ⟨"", []⟩ := by
  exact ⟨by decide, rfl, by decide⟩

/-- C5 amended: when the sanitization pass fails on a non-empty raw quote
text, the reference carries a quote whose text is the plain-text cleanup
of the raw text — or empty when cleanup itself fails — with entities
discarded, and the manual flag still copied from the header. -/
theorem c5_quote_fallback (td : Td) (caps : Caps) (reply_header : MessageReplyHeader)
    (dialog_id : DialogId) (message_id : MessageId) (date : Int)
    (hq : reply_header.quote_text ≠ "")
    (hfix : caps.fixText reply_header.quote_text
      (caps.parseEntities reply_header.quote_entities) = Option.none) :
    (mkRepliedMessageInfo td caps reply_header dialog_id message_id date).1.quote =
        ⟨(caps.cleanString reply_header.quote_text).getD "", []⟩ ∧
      (mkRepliedMessageInfo td caps reply_header dialog_id message_id date).1.is_quote_manual =
        reply_header.quote := by
  unfold mkRepliedMessageInfo normalizeQuote
  rcases hc : caps.cleanString reply_header.quote_text with _ | t <;>
    by_cases hsch : reply_header.reply_to_scheduled <;>
      simp_all

/-- C5 amended witness: raw text "q", failing sanitization, cleanup
producing "cleaned". -/
theorem c5_quote_fallback_witness :
    (mkRepliedMessageInfo ⟨1⟩ fallbackTextCaps { hdrBase with quote_text := "q" }
        (.user 1) (.regular 3) 0).1.quote = ⟨"cleaned", []⟩ ∧
      (mkRepliedMessageInfo ⟨1⟩ fallbackTextCaps { hdrBase with quote_text := "q" }
          (.user 1) (.regular 3) 0).1.is_quote_manual = false := by
  have h := c5_quote_fallback ⟨1⟩ fallbackTextCaps { hdrBase with quote_text := "q" }
    (.user 1) (.regular 3) 0 (by decide) rfl
  simpa [fallbackTextCaps, trivialCaps, hdrBase] using h

/-- Helper: the scheduled-target branch never populates the chat
identity. -/
theorem scheduledTarget_dialog_eq_none (reply_header : MessageReplyHeader)
    (message_id : MessageId) (date : Int) :
    (normalizeScheduledTarget reply_header message_id date).2.1 = DialogId.none := by
  unfold normalizeScheduledTarget
  by_cases hv : message_id.is_valid_scheduled <;>
    rcases hp : reply_header.reply_to_peer_id with _ | peer <;>
      by_cases he : message_id = mkScheduledMessageId reply_header.reply_to_msg_id date <;>
        by_cases hn : message_id = MessageId.none <;>
          simp_all

/-- Helper: in the non-scheduled branch, an empty resulting message
identity forces an empty resulting chat identity. -/
theorem regularTarget_invariant (td : Td) (reply_header : MessageReplyHeader)
    (dialog_id : DialogId) (message_id : MessageId) :
    (normalizeRegularTarget td reply_header dialog_id message_id).1 = MessageId.none →
    (normalizeRegularTarget td reply_header dialog_id message_id).2.1 = DialogId.none := by
  unfold normalizeRegularTarget
  intro h
  rcases hp : reply_header.reply_to_peer_id with _ | peer <;>
    simp only [hp] at h ⊢ <;> split_ifs at h ⊢ <;>
      simp_all [mkServerMessageId, MessageId.is_valid, DialogId.is_valid]

/-- C6: both construction paths maintain the invariant that an empty
`message_id` implies an empty `chat_id`. -/
theorem c6_empty_id_empty_chat :
    (∀ (td : Td) (caps : Caps) (reply_header : MessageReplyHeader) (dialog_id : DialogId)
        (message_id : MessageId) (date : Int),
      (mkRepliedMessageInfo td caps reply_header dialog_id message_id date).1.message_id =
          MessageId.none →
        (mkRepliedMessageInfo td caps reply_header dialog_id message_id date).1.dialog_id =
          DialogId.none) ∧
    (∀ input_reply_to : MessageInputReplyTo,
      (mkRepliedMessageInfoFromInput input_reply_to).message_id = MessageId.none →
        (mkRepliedMessageInfoFromInput input_reply_to).dialog_id = DialogId.none) := by
  constructor
  · intro td caps reply_header dialog_id message_id date h
    unfold mkRepliedMessageInfo at h ⊢
    by_cases hs : reply_header.reply_to_scheduled
    · simpa [hs] using scheduledTarget_dialog_eq_none reply_header message_id date
    · simp only [hs, Bool.false_eq_true, if_false] at h ⊢
      exact regularTarget_invariant td reply_header dialog_id message_id (by simpa using h)
  · intro input_reply_to h
    unfold mkRepliedMessageInfoFromInput at h ⊢
    split_ifs at h ⊢ <;> simp_all

/-- C6 witness: a zero-id wire header and an invalid locally-pending
target. -/
theorem c6_empty_id_empty_chat_witness :
    (mkRepliedMessageInfo ⟨1⟩ trivialCaps hdrBase (.user 1) (.regular 3) 0).1.dialog_id =
        DialogId.none ∧
      (mkRepliedMessageInfoFromInput ⟨.none⟩).dialog_id = DialogId.none :=
  ⟨c6_empty_id_empty_chat.1 ⟨1⟩ trivialCaps hdrBase (.user 1) (.regular 3) 0 (by decide),
   c6_empty_id_empty_chat.2 ⟨.none⟩ (by decide)⟩

end RepliedMessage
